import Mathlib

/-!
Verification of the QR-attendance core: the token codec/validator
(`utils/qrGenerator.js`), the session lifecycle and replay ledger, and the
redemption pipeline (`routes/attendance.js`), over the schemas in
`models/Attendance.js` and `models/AttendanceSession.js`.

External collaborators (Node's `crypto`, `zlib`, `JSON`, `Buffer` base64
codec) are modelled as an explicit record of functions; the repository's own
composition of them is embedded line by line. Storage (MongoDB via mongoose)
is modelled as in-memory lists plus the declared unique compound index.
-/

namespace QRAtt

/-- Uppercase a string character-wise, as JavaScript `toUpperCase` acts on the
ASCII subject codes used by this app. -/
def upper (s : String) : String := String.mk (s.data.map Char.toUpper)

/-- Lowercase a string character-wise, as JavaScript `toLowerCase` acts on the
ASCII department names used by this app. -/
def lower (s : String) : String := String.mk (s.data.map Char.toLower)

/-- The inner QR token payload built in `generateQRPayload`
(qrGenerator: `{ v, sid, tid, sub, ts, n }`). -/
structure Payload where
  v : Nat
  sid : String
  tid : String
  sub : String
  ts : Nat
  n : String
deriving DecidableEq, Repr

/-- The `{ valid, payload, error }` object returned by `validateQRPayload`. -/
structure ValidationResult where
  valid : Bool
  payload : Option Payload
  error : Option String
deriving DecidableEq, Repr

/-- The external library functions used by the QR codec: `JSON.stringify` /
`JSON.parse` on the two object shapes, `crypto.createHmac("sha256", secret)`
as a hex digest, `zlib.deflateSync` / `zlib.inflateSync` (inflate is fallible),
and the base64 codec of `Buffer` (decoding is lenient and total in Node). -/
structure QRExternals where
  jsonStringifyPayload : Payload → String
  jsonParsePayload : String → Option Payload
  jsonStringifyEnvelope : String → String → String
  jsonParseEnvelope : String → Option (String × String)
  hmacSha256Hex : String → String → String
  deflate : String → String
  inflate : String → Option String
  b64encode : String → String
  b64decode : String → String

/-- Value of a single hexadecimal digit, if any. -/
def hexVal (c : Char) : Option Nat :=
  if '0' ≤ c ∧ c ≤ '9' then some (c.toNat - '0'.toNat)
  else if 'a' ≤ c ∧ c ≤ 'f' then some (c.toNat - 'a'.toNat + 10)
  else if 'A' ≤ c ∧ c ≤ 'F' then some (c.toNat - 'A'.toNat + 10)
  else none

/-- Byte decoding of a hex character list, Node `Buffer.from(s, "hex")`
semantics: bytes are read two digits at a time and decoding stops at the
first incomplete or invalid pair. -/
def hexBytesAux : List Char → List Nat
  | c1 :: c2 :: rest =>
    match hexVal c1, hexVal c2 with
    | some hi, some lo => (16 * hi + lo) :: hexBytesAux rest
    | _, _ => []
  | _ => []

/-- Byte decoding of a hex string, Node `Buffer.from(s, "hex")` semantics. -/
def hexToBytes (s : String) : List Nat := hexBytesAux s.data

/-- Node `crypto.timingSafeEqual`: throws a `RangeError` when the two buffers
have different byte lengths, otherwise compares them. The throw is modelled
as the `Except` error case. -/
def timingSafeEqual (a b : List Nat) : Except String Bool :=
  if a.length = b.length then .ok (a == b)
  else .error "Input buffers must have the same byte length"

/-- Embedding of `generateQRPayload` (qrGenerator): build the payload object
with version 1, serialize, HMAC-sign, wrap in the `{ p, s }` envelope,
deflate, base64-encode. The random nonce and the clock are passed in
explicitly. Returns `(qrData, nonce)` as the source does. -/
def generateQRPayload (E : QRExternals) (secret nonce : String) (nowTs : Nat)
    (sessionId teacherId subjectCode : String) : String × String :=
  let payload : Payload :=
    { v := 1, sid := sessionId, tid := teacherId, sub := subjectCode,
      ts := nowTs, n := nonce }
  let payloadStr := E.jsonStringifyPayload payload
  let signature := E.hmacSha256Hex secret payloadStr
  let signedData := E.jsonStringifyEnvelope payloadStr signature
  let compressed := E.deflate signedData
  (E.b64encode compressed, nonce)

/-- A failure result of `validateQRPayload`: `{ valid: false, payload: null,
error: msg }`. Every failure return in the source carries `payload: null`. -/
def invalidResult (msg : String) : ValidationResult :=
  { valid := false, payload := none, error := some msg }

/-- Body of `validateQRPayload` inside its outer `try`: any uncaught exception
(only `timingSafeEqual` can throw here; `inflateSync` and both `JSON.parse`
calls sit in their own inner try/catch) is the `Except` error case.
The `!signedData.p || !signedData.s` and
`!payload.v || ... || !payload.ts || ...` checks use JavaScript falsiness, so
an empty string or a zero number fails them; this is modelled by the
`= ""` / `= 0` disjuncts. -/
def validateQRBody (E : QRExternals) (secret : String) (validity nowSec : Nat)
    (qrData : String) : Except String ValidationResult :=
  match E.inflate (E.b64decode qrData) with
  | none => .ok (invalidResult "Invalid QR data: decompression failed")
  | some decompressed =>
    match E.jsonParseEnvelope decompressed with
    | none => .ok (invalidResult "Invalid QR data: malformed structure")
    | some ps =>
      if ps.1 = "" ∨ ps.2 = "" then
        .ok (invalidResult "Invalid QR data: missing fields")
      else
        match timingSafeEqual (hexToBytes ps.2)
            (hexToBytes (E.hmacSha256Hex secret ps.1)) with
        | .error msg => .error msg
        | .ok sigOk =>
          if sigOk = false then
            .ok (invalidResult "Invalid QR data: signature mismatch (tampered)")
          else
            match E.jsonParsePayload ps.1 with
            | none => .ok (invalidResult "Invalid QR data: malformed payload")
            | some payload =>
              if payload.v = 0 ∨ payload.sid = "" ∨ payload.tid = "" ∨
                  payload.sub = "" ∨ payload.ts = 0 ∨ payload.n = "" then
                .ok (invalidResult "Invalid QR data: incomplete payload")
              else
                if (nowSec : Int) - (payload.ts : Int) < 0 then
                  .ok (invalidResult "Invalid QR data: future timestamp")
                else if (nowSec : Int) - (payload.ts : Int) > (validity : Int) then
                  .ok (invalidResult "QR code has expired")
                else
                  .ok { valid := true, payload := some payload, error := none }

/-- Embedding of `validateQRPayload` (qrGenerator): the body wrapped in the
outer catch, which maps any thrown exception to the generic
`"QR validation failed: " + error.message` result. -/
def validateQRPayload (E : QRExternals) (secret : String) (validity nowSec : Nat)
    (qrData : String) : ValidationResult :=
  match validateQRBody E secret validity nowSec qrData with
  | .ok r => r
  | .error msg => invalidResult ("QR validation failed: " ++ msg)

/-- An `AttendanceSession` document (models/AttendanceSession.js). `id` is the
Mongo `_id`. `usedNonces` is the replay ledger. -/
structure Session where
  id : String
  subjectCode : String
  teacherId : String
  date : String
  startTime : Nat
  endTime : Option Nat
  active : Bool
  usedNonces : List String
deriving DecidableEq, Repr

/-- An `Attendance` document (models/Attendance.js). -/
structure AttendanceRecord where
  studentId : String
  subjectCode : String
  sessionId : String
  date : String
  timestamp : Nat
deriving DecidableEq, Repr

/-- The part of a `User` document the scan pipeline reads. -/
structure UserRec where
  id : String
  department : String
deriving DecidableEq, Repr

/-- The part of a `Subject` document the scan pipeline reads. -/
structure SubjectRec where
  subjectCode : String
  department : String
deriving DecidableEq, Repr

/-- The part of a `Teacher` document the start handler reads. -/
structure TeacherRec where
  userId : String
  subjectCodes : List String
deriving DecidableEq, Repr

/-- The durable MongoDB state seen by the attendance routes. -/
structure DB where
  sessions : List Session
  users : List UserRec
  subjects : List SubjectRec
  teachers : List TeacherRec
  attendance : List AttendanceRecord
deriving DecidableEq, Repr

/-- A MongoDB driver error; duplicate-key violations carry `code` 11000. -/
structure MongoError where
  code : Nat
deriving DecidableEq, Repr

/-- Two attendance records collide on the compound unique index
`(studentId, subjectCode, date)` declared in models/Attendance.js. -/
def sameTriple (a b : AttendanceRecord) : Prop :=
  a.studentId = b.studentId ∧ a.subjectCode = b.subjectCode ∧ a.date = b.date

/-- The storage invariant the unique index maintains: no two stored records
share the `(studentId, subjectCode, date)` triple. -/
def UniqueTriples (l : List AttendanceRecord) : Prop :=
  l.Pairwise (fun a b => ¬ sameTriple a b)

/-- A record colliding with `r0` on the unique-index triple already exists. -/
def tripleExists (db : DB) (r0 : AttendanceRecord) : Bool :=
  db.attendance.any (fun a =>
    a.studentId == r0.studentId && a.subjectCode == r0.subjectCode &&
    a.date == r0.date)

/-- `attendance.save()` against the compound unique index of
models/Attendance.js: MongoDB rejects a write colliding with a stored record
by throwing a duplicate-key error with `code` 11000; otherwise the record
is appended durably. -/
def insertAttendance (db : DB) (r0 : AttendanceRecord) : Except MongoError DB :=
  if tripleExists db r0 then .error { code := 11000 }
  else .ok { db with attendance := db.attendance ++ [r0] }

/-- `session.save()` on a loaded mongoose document: the stored document with
the same `_id` is replaced by the in-memory one. -/
def saveSession (db : DB) (s1 : Session) : DB :=
  { db with sessions := db.sessions.map (fun t => if t.id == s1.id then s1 else t) }

/-- `AttendanceSession.findOne({ teacherId, active: true })`. -/
def findActiveSession (db : DB) (teacherId : String) : Option Session :=
  db.sessions.find? (fun s => s.teacherId == teacherId && s.active)

/-- Outcome of the POST /attendance/scan handler, one constructor per
response the source can send. -/
inductive ScanOutcome where
  | validationFailed (msg : String)
  | invalidSession
  | sessionEnded
  | teacherMismatch
  | nonceUsed
  | studentNotFound
  | subjectNotFound
  | departmentMismatch
  | alreadyMarked
  | duplicateKey
  | serverError
  | success (subjectCode date : String)
deriving DecidableEq, Repr

/-- The catch block of POST /attendance/scan (attendance.js lines 420-432):
a duplicate-key error (`code` 11000) becomes the 400 "already marked"
response, anything else the generic 500. -/
def scanCatch (e : MongoError) : ScanOutcome :=
  if e.code = 11000 then .duplicateKey else .serverError

/-- Steps 4-8 of POST /attendance/scan (attendance.js lines 320-419), after
`validateQRPayload` has produced a payload: session lookup, active check,
teacher match, nonce replay check, student and subject lookup, department
match, duplicate pre-check, then `attendance.save()` (whose duplicate-key
throw is routed to the catch block before the nonce is pushed) and finally
`usedNonces.push(nonce)` with `session.save()`. -/
def scanCore (db : DB) (studentUserId : String) (pl : Payload)
    (today : String) (nowTs : Nat) : ScanOutcome × DB :=
  match db.sessions.find? (fun s => s.id == pl.sid) with
  | none => (.invalidSession, db)
  | some session =>
    if session.active = false then (.sessionEnded, db)
    else if session.teacherId ≠ pl.tid then (.teacherMismatch, db)
    else if session.usedNonces.contains pl.n then (.nonceUsed, db)
    else
      match db.users.find? (fun u => u.id == studentUserId) with
      | none => (.studentNotFound, db)
      | some studentUser =>
        match db.subjects.find? (fun sb => sb.subjectCode == upper pl.sub) with
        | none => (.subjectNotFound, db)
        | some subject =>
          if lower studentUser.department ≠ lower subject.department then
            (.departmentMismatch, db)
          else if db.attendance.any (fun a =>
              a.studentId == studentUserId && a.subjectCode == upper pl.sub &&
              a.date == today) then
            (.alreadyMarked, db)
          else
            match insertAttendance db
              { studentId := studentUserId, subjectCode := upper pl.sub,
                sessionId := session.id, date := today, timestamp := nowTs } with
            | .error e => (scanCatch e, db)
            | .ok db1 =>
              let session1 :=
                { session with usedNonces := session.usedNonces ++ [pl.n] }
              (.success (upper pl.sub) today, saveSession db1 session1)

/-- The full POST /attendance/scan handler: validate the raw QR string, then
run the session/record pipeline on the recovered payload. -/
def scanHandler (E : QRExternals) (secret : String) (validity nowSec : Nat)
    (db : DB) (studentUserId qrData today : String) (nowTs : Nat) :
    ScanOutcome × DB :=
  let validation := validateQRPayload E secret validity nowSec qrData
  if validation.valid = false then
    (.validationFailed (validation.error.getD ""), db)
  else
    match validation.payload with
    | none => (.serverError, db)
    | some pl => scanCore db studentUserId pl today nowTs

/-- The SessionLedger `recordNonce` operation, as the source implements it
across POST /attendance/scan: the membership check of step 5
(`session.usedNonces.includes(nonce)`, lines 345-351) and the append of step
8 (`session.usedNonces.push(nonce)`, lines 407-409). On replay the ledger is
returned unchanged inside the error (no mutation), otherwise the nonce is
appended. -/
def recordNonce (s : Session) (n : String) : Except Unit Session :=
  if s.usedNonces.contains n then .error ()
  else .ok { s with usedNonces := s.usedNonces ++ [n] }

/-- One session's ledger is a later state of another's: nonces are only ever
appended while a session is active. -/
def LedgerExtends (s t : Session) : Prop :=
  ∃ extra, t.usedNonces = s.usedNonces ++ extra

/-- Arguments of one POST /attendance/start call: the authenticated teacher,
the requested subject, the clock, the derived YYYY-MM-DD day string, and the
`_id` MongoDB assigns to the created session document. -/
structure StartCall where
  teacherId : String
  subjectCode : String
  now : Nat
  today : String
  newId : String
deriving DecidableEq, Repr

/-- The session document POST /attendance/start creates (lines 85-93). -/
def newSessionOf (c : StartCall) : Session :=
  { id := c.newId, subjectCode := upper c.subjectCode, teacherId := c.teacherId,
    date := c.today, startTime := c.now, endTime := none, active := true,
    usedNonces := [] }

/-- The teacher-assignment guard of POST /attendance/start (lines 57-66). -/
def teacherAssigned (db : DB) (teacherId subjectCode : String) : Bool :=
  match db.teachers.find? (fun t => t.userId == teacherId) with
  | none => false
  | some t => t.subjectCodes.contains (upper subjectCode)

/-- Embedding of POST /attendance/start (attendance.js lines 51-105): reject
unassigned teachers (403, no state change); otherwise close any existing
active session of this teacher (`active := false`, `endTime := now`, saved)
and then create the new active session. -/
def startSession (db : DB) (c : StartCall) : DB :=
  if teacherAssigned db c.teacherId c.subjectCode = false then db
  else
    let db1 :=
      match findActiveSession db c.teacherId with
      | some ex => saveSession db { ex with active := false, endTime := some c.now }
      | none => db
    { db1 with sessions := db1.sessions ++ [newSessionOf c] }

/-- A sequence of POST /attendance/start calls, in order. -/
def runStarts (db : DB) (cs : List StartCall) : DB := cs.foldl startSession db

/-- Embedding of POST /attendance/stop (attendance.js lines 120-158): find
the teacher's active session; if none, 404 with no state change; otherwise
set `active := false` and `endTime := now` and save. -/
def stopSession (db : DB) (teacherId : String) (now : Nat) : Option Session × DB :=
  match findActiveSession db teacherId with
  | none => (none, db)
  | some session =>
    let session1 := { session with active := false, endTime := some now }
    (some session1, saveSession db session1)

/-- The in-memory `usedNonces` trim of GET /attendance/qr/current (lines
262-264): when the ledger holds more than 100 entries it is replaced by its
last 50 entries (`slice(-50)`). -/
def trimNonces (l : List String) : List String :=
  if l.length > 100 then l.drop (l.length - 50) else l

/-- Outcome of GET /attendance/qr/current. -/
inductive MintOutcome where
  | noActiveSession
  | minted (qrData sessionId subjectCode : String)
deriving DecidableEq, Repr

/-- Embedding of GET /attendance/qr/current (attendance.js lines 232-282):
find the active session, mint a fresh signed QR for it, apply the in-memory
nonce trim to the loaded document, and respond. The handler contains no
`session.save()`, so the returned durable state is the input `db` itself. -/
def qrCurrent (E : QRExternals) (secret : String) (db : DB)
    (teacherId : String) (nowSec : Nat) (nonce : String) : MintOutcome × DB :=
  match findActiveSession db teacherId with
  | none => (.noActiveSession, db)
  | some session =>
    let qr := generateQRPayload E secret nonce nowSec session.id teacherId
      session.subjectCode
    let sessionMem := { session with usedNonces := trimNonces session.usedNonces }
    (.minted qr.1 sessionMem.id sessionMem.subjectCode, db)

/-- Value of a single decimal digit, if any. -/
def digitVal (c : Char) : Option Nat :=
  if '0' ≤ c ∧ c ≤ '9' then some (c.toNat - '0'.toNat) else none

/-- Accumulating decimal parser over a character list. -/
def parseNatGo : List Char → Nat → Option Nat
  | [], acc => some acc
  | c :: rest, acc =>
    match digitVal c with
    | some d => parseNatGo rest (10 * acc + d)
    | none => none

/-- Decimal parser: a nonempty all-digit character list. -/
def parseNatChars : List Char → Option Nat
  | [] => none
  | cs => parseNatGo cs 0

/-- Concatenate strings with a bar separator. -/
def joinBar : List String → String
  | [] => ""
  | [x] => x
  | x :: rest => x ++ "|" ++ joinBar rest

/-- Split a character list on a separator character. -/
def splitChar (sep : Char) : List Char → List (List Char)
  | [] => [[]]
  | c :: rest =>
    let r := splitChar sep rest
    if c = sep then [] :: r
    else
      match r with
      | [] => [[c]]
      | h :: t => (c :: h) :: t

/-- Split a character list at its first colon, if any. -/
def splitAtColon : List Char → Option (List Char × List Char)
  | [] => none
  | c :: rest =>
    if c = ':' then some ([], rest)
    else
      match splitAtColon rest with
      | some (a, b) => some (c :: a, b)
      | none => none

/-- A concrete bar-separated serializer standing in for `JSON.stringify` on
the payload object in the demonstration instance of the externals. -/
def encPayload (p : Payload) : String :=
  joinBar [toString p.v, p.sid, p.tid, p.sub, toString p.ts, p.n]

/-- Inverse of `encPayload` on bar-free fields. -/
def decPayload (s : String) : Option Payload :=
  match splitChar '|' s.data with
  | [v, sid, tid, sub, ts, n] =>
    match parseNatChars v, parseNatChars ts with
    | some vn, some tsn =>
      some { v := vn, sid := String.mk sid, tid := String.mk tid,
             sub := String.mk sub, ts := tsn, n := String.mk n }
    | _, _ => none
  | _ => none

/-- A concrete length-prefixed serializer standing in for `JSON.stringify`
on the `{ p, s }` envelope in the demonstration instance. -/
def encEnvelope (p sg : String) : String :=
  toString p.length ++ ":" ++ p ++ sg

/-- Inverse of `encEnvelope` on colon-free length fields. -/
def decEnvelope (s : String) : Option (String × String) :=
  match splitAtColon s.data with
  | some (lenChars, body) =>
    match parseNatChars lenChars with
    | some len => some (String.mk (body.take len), String.mk (body.drop len))
    | none => none
  | none => none

/-- A fixed 64-hex-character digest, the length shape of an HMAC-SHA256 hex
digest, used as the keyed-MAC of the demonstration instance. -/
def demoDigest : String := String.mk (List.replicate 64 '0')

/-- A concrete, fully executable instance of the external collaborators used
to evaluate the embedded handlers on closed inputs: serializers are the
invertible encoders above, compression and base64 are the identity codec,
and the MAC is the constant 64-hex-character digest. -/
def demoExternals : QRExternals :=
  { jsonStringifyPayload := encPayload
    jsonParsePayload := decPayload
    jsonStringifyEnvelope := encEnvelope
    jsonParseEnvelope := decEnvelope
    hmacSha256Hex := fun _ _ => demoDigest
    deflate := fun s => s
    inflate := fun s => some s
    b64encode := fun s => s
    b64decode := fun s => s }

/-- The payload object `generateQRPayload` builds for given mint inputs. -/
def mintedPayload (sessionId teacherId subjectCode : String) (ts : Nat)
    (nonce : String) : Payload :=
  { v := 1, sid := sessionId, tid := teacherId, sub := subjectCode,
    ts := ts, n := nonce }

/-- The serialized payload string of a minted token. -/
def mintedPayloadStr (E : QRExternals) (sessionId teacherId subjectCode : String)
    (ts : Nat) (nonce : String) : String :=
  E.jsonStringifyPayload (mintedPayload sessionId teacherId subjectCode ts nonce)

/-- The hex signature of a minted token. -/
def mintedSig (E : QRExternals) (secret sessionId teacherId subjectCode : String)
    (ts : Nat) (nonce : String) : String :=
  E.hmacSha256Hex secret (mintedPayloadStr E sessionId teacherId subjectCode ts nonce)

/-- The signed envelope string of a minted token. -/
def mintedEnvelope (E : QRExternals) (secret sessionId teacherId subjectCode : String)
    (ts : Nat) (nonce : String) : String :=
  E.jsonStringifyEnvelope
    (mintedPayloadStr E sessionId teacherId subjectCode ts nonce)
    (mintedSig E secret sessionId teacherId subjectCode ts nonce)

/-- The sessions of `db` that are active and belong to `teacherId` — the set
the invariant of claim C5 bounds. -/
def activeSessionsFor (db : DB) (teacherId : String) : List Session :=
  db.sessions.filter (fun s => s.teacherId == teacherId && s.active)

/-- Invariant: every presenter has at most one active session. -/
def AtMostOneActive (db : DB) : Prop :=
  ∀ t, (activeSessionsFor db t).length ≤ 1

/-- A demonstration session fixture: active, owned by teacher T1. -/
def demoSession : Session :=
  { id := "S1", subjectCode := "MATH101", teacherId := "T1", date := "2026-10-10",
    startTime := 50, endTime := none, active := true, usedNonces := [] }

/-- Fixture for the C4 counterexample: the session is live and the nonce is
fresh, but the student's department does not match the subject's. -/
def c4db : DB :=
  { sessions := [demoSession],
    users := [{ id := "U1", department := "Physics" }],
    subjects := [{ subjectCode := "MATH101", department := "Chemical Engineering" }],
    teachers := [], attendance := [] }

/-- The QR string minted for the C4 counterexample run. -/
def c4qr : String :=
  (generateQRPayload demoExternals "sec" "N1" 100 "S1" "T1" "MATH101").1

/-- Fixture for the C8 witness: the referenced session exists but has been
stopped (`active = false`). -/
def c8db : DB :=
  { sessions := [{ demoSession with active := false, endTime := some 90 }],
    users := [], subjects := [], teachers := [], attendance := [] }

/-- An attendance record fixture. -/
def c1rec0 : AttendanceRecord :=
  { studentId := "U1", subjectCode := "MATH101", sessionId := "S1",
    date := "2026-10-10", timestamp := 60 }

/-- A second redemption attempt by the same student, subject and day (a
different session and timestamp, same unique-index triple). -/
def c1rec1 : AttendanceRecord :=
  { studentId := "U1", subjectCode := "MATH101", sessionId := "S2",
    date := "2026-10-10", timestamp := 70 }

/-- Fixture DB for the C1 witness: one stored attendance record. -/
def c1db : DB :=
  { sessions := [], users := [], subjects := [], teachers := [],
    attendance := [c1rec0] }

/-- Session fixtures for the C2 witness: the ledger after recording N1, then
after further interleaved nonces. -/
def c2s1 : Session := { demoSession with usedNonces := ["N1"] }

/-- The C2 witness ledger extended by an interleaved nonce. -/
def c2s2 : Session := { demoSession with usedNonces := ["N1", "N2"] }

/-- Fixture DB for the C5 witness: no sessions yet, teacher T1 assigned to
MATH101. -/
def c5db : DB :=
  { sessions := [], users := [], subjects := [],
    teachers := [{ userId := "T1", subjectCodes := ["MATH101"] }],
    attendance := [] }

/-- First start call of the C5 witness. -/
def c5c1 : StartCall :=
  { teacherId := "T1", subjectCode := "MATH101", now := 10, today := "2026-10-10",
    newId := "A" }

/-- Second start call of the C5 witness. -/
def c5c2 : StartCall :=
  { teacherId := "T1", subjectCode := "MATH101", now := 20, today := "2026-10-10",
    newId := "B" }

/-- A 101-entry nonce ledger (distinct decimal strings), long enough to
trigger the compaction branch of GET /attendance/qr/current. -/
def c7Ledger : List String := (List.range 101).map (fun i => Nat.repr i)

/-- Mint times for the C7 counterexample: every nonce in the ledger was
minted at the current instant, so every entry is younger than any freshness
window. -/
def c7MintTime : String → Nat := fun _ => 10

/-- A witness-existence form of the duplicate-key test. -/
lemma tripleExists_iff (db : DB) (r0 : AttendanceRecord) :
    tripleExists db r0 = true ↔ ∃ a ∈ db.attendance, sameTriple a r0 := by
  simp [tripleExists, sameTriple, List.any_eq_true, and_assoc]

/-- A successful insert leaves the index invariant intact: the new record
collides with no stored one, so pairwise distinctness of triples persists. -/
lemma insert_ok_unique (db : DB) (r0 : AttendanceRecord) (db1 : DB)
    (hok : insertAttendance db r0 = .ok db1) (h : UniqueTriples db.attendance) :
    UniqueTriples db1.attendance := by
  have hne : tripleExists db r0 = false := by
    by_contra hc
    rw [Bool.not_eq_false] at hc
    simp [insertAttendance, hc] at hok
  have hdb1 : db1 = { db with attendance := db.attendance ++ [r0] } := by
    simp only [insertAttendance, hne, Bool.false_eq_true, if_false,
      Except.ok.injEq] at hok
    exact hok.symm
  subst hdb1
  unfold UniqueTriples
  rw [List.pairwise_append]
  refine ⟨h, List.pairwise_singleton _ _, ?_⟩
  intro a ha b hb
  simp only [List.mem_singleton] at hb
  rw [hb]
  intro hsame
  rw [← Bool.not_eq_true] at hne
  exact hne ((tripleExists_iff db r0).2 ⟨a, ha, hsame⟩)

/-- A successful insert only touches the attendance collection. -/
lemma insert_ok_sessions (db : DB) (r0 : AttendanceRecord) (db1 : DB)
    (hok : insertAttendance db r0 = .ok db1) : db1.sessions = db.sessions := by
  unfold insertAttendance at hok
  split at hok
  · cases hok
  · cases hok; rfl

/-- Exhaustive shape of one scan-pipeline run: either the handler returned
early (database untouched, outcome not a success), or it succeeded, inserted
a record through the unique index, and saved the session with the nonce
appended. -/
lemma scanCore_cases (db : DB) (uid : String) (pl : Payload) (today : String)
    (nowTs : Nat) :
    ((scanCore db uid pl today nowTs).2 = db ∧
      ∀ sc d, (scanCore db uid pl today nowTs).1 ≠ .success sc d) ∨
    ((scanCore db uid pl today nowTs).1 = .success (upper pl.sub) today ∧
      ∃ r0 db1 s1,
        db.sessions.find? (fun s => s.id == pl.sid) = some s1 ∧
        insertAttendance db r0 = .ok db1 ∧
        (scanCore db uid pl today nowTs).2 =
          saveSession db1 { s1 with usedNonces := s1.usedNonces ++ [pl.n] }) := by
  unfold scanCore
  split
  · exact .inl ⟨rfl, by intro sc d h; cases h⟩
  · next s1 hfind =>
    split
    · exact .inl ⟨rfl, by intro sc d h; cases h⟩
    · split
      · exact .inl ⟨rfl, by intro sc d h; cases h⟩
      · split
        · exact .inl ⟨rfl, by intro sc d h; cases h⟩
        · split
          · exact .inl ⟨rfl, by intro sc d h; cases h⟩
          · split
            · exact .inl ⟨rfl, by intro sc d h; cases h⟩
            · split
              · exact .inl ⟨rfl, by intro sc d h; cases h⟩
              · split
                · exact .inl ⟨rfl, by intro sc d h; cases h⟩
                · split
                  · next e hins =>
                    refine .inl ⟨rfl, ?_⟩
                    intro sc d h
                    unfold scanCatch at h
                    split at h <;> cases h
                  · next db1 hins =>
                    exact .inr ⟨rfl, _, db1, s1, hfind, hins, rfl⟩

/-- A scan run that does not succeed leaves the database unchanged. -/
lemma scanCore_frame (db : DB) (uid : String) (pl : Payload) (today : String)
    (nowTs : Nat) :
    (scanCore db uid pl today nowTs).2 = db ∨
    (scanCore db uid pl today nowTs).1 = .success (upper pl.sub) today :=
  (scanCore_cases db uid pl today nowTs).imp And.left And.left

/-- The scan pipeline preserves the unique-index invariant. -/
lemma scanCore_unique (db : DB) (uid : String) (pl : Payload) (today : String)
    (nowTs : Nat) (h : UniqueTriples db.attendance) :
    UniqueTriples ((scanCore db uid pl today nowTs).2).attendance := by
  rcases scanCore_cases db uid pl today nowTs with ⟨h2, -⟩ | ⟨-, r0, db1, s1, -, hins, h2⟩
  · rw [h2]; exact h
  · rw [h2]
    exact insert_ok_unique db r0 db1 hins h

/-- Updating the list element(s) carrying the found id replaces the first
hit of an id-keyed search. -/
lemma find?_map_update (l : List Session) (sid : String) (x y : Session)
    (hfind : l.find? (fun t => t.id == sid) = some x) (hid : y.id = x.id) :
    (l.map (fun t => if t.id == y.id then y else t)).find?
      (fun t => t.id == sid) = some y := by
  have hxid : x.id = sid := by
    have := List.find?_some hfind
    simpa using this
  induction l with
  | nil => cases hfind
  | cons a rest ih =>
    by_cases hpa : (a.id == sid) = true
    · have hax : a = x := by
        simp only [List.find?_cons, hpa] at hfind
        simpa using hfind
      have hay : (a.id == y.id) = true := by simp [hax, hid]
      have hpy : (y.id == sid) = true := by simp [hid, hxid]
      simp only [List.map_cons, hay, if_true, List.find?_cons, hpy]
    · have hpaf : (a.id == sid) = false := by
        revert hpa
        cases (a.id == sid) <;> simp
      simp only [List.find?_cons, hpaf] at hfind
      have hay : (a.id == y.id) = false := by
        simp only [beq_eq_false_iff_ne, ne_eq]
        rw [hid, hxid]
        simpa using hpaf
      simp only [List.map_cons, hay, Bool.false_eq_true, if_false,
        List.find?_cons, hpaf]
      exact ih hfind

/-- C1: the compound unique index on (studentId, subjectCode, date) is the
storage-level guarantee of at most one attendance record per triple: an
insert colliding with a stored record is rejected with duplicate-key code
11000 independent of any advisory pre-check, the scan handler's catch maps
code 11000 to the duplicate-attendance outcome, a successful insert
preserves the uniqueness invariant, and the whole scan pipeline preserves
it. -/
theorem c1_unique_index_and_duplicate_mapping (db : DB) (r0 : AttendanceRecord)
    (h : UniqueTriples db.attendance) :
    (tripleExists db r0 = true → insertAttendance db r0 = .error { code := 11000 }) ∧
    scanCatch { code := 11000 } = .duplicateKey ∧
    (∀ db1, insertAttendance db r0 = .ok db1 → UniqueTriples db1.attendance) ∧
    (∀ uid pl today nowTs,
      UniqueTriples ((scanCore db uid pl today nowTs).2).attendance) := by
  refine ⟨?_, by simp [scanCatch], ?_, ?_⟩
  · intro he
    simp [insertAttendance, he]
  · intro db1 hok
    exact insert_ok_unique db r0 db1 hok h
  · intro uid pl today nowTs
    exact scanCore_unique db uid pl today nowTs h

/-- Witness for C1 at a concrete store: a second record for the same
(studentId, subjectCode, date) triple is rejected with code 11000. -/
theorem c1_unique_index_witness :
    insertAttendance c1db c1rec1 = .error { code := 11000 } :=
  (c1_unique_index_and_duplicate_mapping c1db c1rec1
    (List.pairwise_singleton _ _)).1 (by decide)

/-- C2: once a redemption has recorded nonce n (appended to the ledger),
any later `recordNonce` of n — against any ledger state reachable by
appending further nonces in any interleaving — yields the replay error, and
the scan pipeline's replay branch leaves the database unmodified. -/
theorem c2_second_recordNonce_always_replays (s : Session) (n : String)
    (s1 : Session) (h : recordNonce s n = .ok s1) :
    s1.usedNonces = s.usedNonces ++ [n] ∧
    (∀ s2, LedgerExtends s1 s2 → recordNonce s2 n = .error ()) ∧
    (∀ db uid pl today nowTs,
      (scanCore db uid pl today nowTs).1 = .nonceUsed →
      (scanCore db uid pl today nowTs).2 = db) := by
  have hc : ¬ (s.usedNonces.contains n = true) := by
    intro hc
    unfold recordNonce at h
    rw [if_pos hc] at h
    cases h
  have hs1 : s1 = { s with usedNonces := s.usedNonces ++ [n] } := by
    unfold recordNonce at h
    rw [if_neg hc] at h
    cases h
    rfl
  refine ⟨by rw [hs1], ?_, ?_⟩
  · intro s2 hext
    rcases hext with ⟨extra, hx⟩
    have hmem : s2.usedNonces.contains n = true := by
      rw [List.contains_iff_exists_mem_beq]
      refine ⟨n, ?_, by simp⟩
      rw [hx, hs1]
      simp
    unfold recordNonce
    rw [if_pos hmem]
  · intro db uid pl today nowTs h1
    rcases scanCore_cases db uid pl today nowTs with ⟨h2, -⟩ | ⟨h2, -⟩
    · exact h2
    · rw [h1] at h2
      cases h2

/-- Witness for C2: after recording N1 and then an interleaved N2, recording
N1 again is the replay error. -/
theorem c2_second_recordNonce_witness : recordNonce c2s2 "N1" = .error () :=
  ((c2_second_recordNonce_always_replays demoSession "N1" c2s1 (by rfl)).2.1)
    c2s2 ⟨["N2"], by rfl⟩

/-- C10: GET /attendance/qr/current performs no durable session write — the
returned store equals the input store, so the minted nonce is absent from
the stored ledger and the in-memory trim is never persisted; the scan
pipeline is the only writer and it writes only on a successful redemption. -/
theorem c10_mint_is_pure_read (E : QRExternals) (secret : String) (db : DB)
    (teacherId : String) (nowSec : Nat) (nonce : String) :
    (qrCurrent E secret db teacherId nowSec nonce).2 = db ∧
    (∀ db2 uid pl today nowTs,
      (scanCore db2 uid pl today nowTs).2 = db2 ∨
      (scanCore db2 uid pl today nowTs).1 = .success (upper pl.sub) today) := by
  constructor
  · unfold qrCurrent
    split <;> rfl
  · intro db2 uid pl today nowTs
    exact scanCore_frame db2 uid pl today nowTs

/-- C8: a token that decodes and verifies but references a stopped session
(`active = false`) is rejected with the session-ended outcome, and because
this check precedes the replay, cohort and duplicate checks the database is
returned unchanged — no nonce is recorded and no attendance record is
created, whatever the ledger, department or attendance state. -/
theorem c8_closed_session_rejected (E : QRExternals) (secret : String)
    (validity nowSec : Nat) (db : DB) (uid qrData today : String) (nowTs : Nat)
    (pl : Payload) (s1 : Session)
    (hval : validateQRPayload E secret validity nowSec qrData =
      { valid := true, payload := some pl, error := none })
    (hfind : db.sessions.find? (fun t => t.id == pl.sid) = some s1)
    (hact : s1.active = false) :
    scanHandler E secret validity nowSec db uid qrData today nowTs =
      (.sessionEnded, db) := by
  unfold scanHandler
  rw [hval]
  simp only [Bool.true_eq_false, if_false]
  unfold scanCore
  rw [hfind]
  simp [hact]

/-- Witness for C8: a freshly minted, in-window token for session S1 is
rejected with the session-ended outcome once S1 is stopped, leaving the
store untouched. -/
theorem c8_closed_session_witness :
    scanHandler demoExternals "sec" 3 100 c8db "U1" c4qr "2026-10-10" 100 =
      (.sessionEnded, c8db) :=
  c8_closed_session_rejected demoExternals "sec" 3 100 c8db "U1" c4qr
    "2026-10-10" 100 (mintedPayload "S1" "T1" "MATH101" 100 "N1")
    { demoSession with active := false, endTime := some 90 }
    (by decide) (by decide) (by decide)

/-- C4 counterexample: a redemption that decodes, verifies, finds the live
session and the matching presenter, and carries a fresh nonce, then fails
the cohort (department) check, leaves the database — including the nonce
ledger — unchanged; resubmitting the very same token again yields the
cohort mismatch, not the replay error the claim predicts. -/
theorem c4_counterexample :
    (scanHandler demoExternals "sec" 3 100 c4db "U1" c4qr "2026-10-10" 100).1
      = .departmentMismatch ∧
    (scanHandler demoExternals "sec" 3 100 c4db "U1" c4qr "2026-10-10" 100).2
      = c4db ∧
    (scanHandler demoExternals "sec" 3 100
      ((scanHandler demoExternals "sec" 3 100 c4db "U1" c4qr "2026-10-10" 100).2)
      "U1" c4qr "2026-10-10" 101).1 = .departmentMismatch ∧
    (scanHandler demoExternals "sec" 3 100
      ((scanHandler demoExternals "sec" 3 100 c4db "U1" c4qr "2026-10-10" 100).2)
      "U1" c4qr "2026-10-10" 101).1 ≠ .nonceUsed := by decide

/-- C4 (amended): the scan pipeline only checks the nonce at step 5 and
appends it at step 8, after the attendance write has succeeded. A redemption
failing the cohort check, the duplicate pre-check, or the unique-index write
leaves the database (hence the ledger) unchanged, so the nonce is not
consumed by the failed attempt; the nonce is consumed exactly by a
successful redemption, which appends it to the stored session's ledger. -/
theorem c4_amended_nonce_consumed_only_on_success (db : DB) (uid : String)
    (pl : Payload) (today : String) (nowTs : Nat) :
    (((scanCore db uid pl today nowTs).1 = .departmentMismatch ∨
      (scanCore db uid pl today nowTs).1 = .alreadyMarked ∨
      (scanCore db uid pl today nowTs).1 = .duplicateKey) →
      (scanCore db uid pl today nowTs).2 = db) ∧
    (∀ sc d, (scanCore db uid pl today nowTs).1 = .success sc d →
      ∃ s1, db.sessions.find? (fun t => t.id == pl.sid) = some s1 ∧
        ((scanCore db uid pl today nowTs).2).sessions.find?
            (fun t => t.id == pl.sid)
          = some { s1 with usedNonces := s1.usedNonces ++ [pl.n] }) := by
  constructor
  · intro hfail
    rcases scanCore_cases db uid pl today nowTs with ⟨h2, -⟩ | ⟨h2, -⟩
    · exact h2
    · rcases hfail with h1 | h1 | h1 <;> (rw [h1] at h2; cases h2)
  · intro sc d hsucc
    rcases scanCore_cases db uid pl today nowTs with ⟨-, hne⟩ |
      ⟨-, r0, db1, s1, hfind, hins, hsnd⟩
    · exact absurd hsucc (hne sc d)
    · refine ⟨s1, hfind, ?_⟩
      rw [hsnd]
      unfold saveSession
      simp only []
      rw [insert_ok_sessions db r0 db1 hins]
      exact find?_map_update db.sessions pl.sid s1
        { s1 with usedNonces := s1.usedNonces ++ [pl.n] } hfind rfl

/-- Witness for C4 (amended) at the counterexample fixture: the failed
cohort check leaves the store unchanged. -/
theorem c4_amended_witness :
    (scanCore c4db "U1" (mintedPayload "S1" "T1" "MATH101" 100 "N1")
      "2026-10-10" 100).2 = c4db :=
  (c4_amended_nonce_consumed_only_on_success c4db "U1"
    (mintedPayload "S1" "T1" "MATH101" 100 "N1") "2026-10-10" 100).1
    (Or.inl (by decide))

/-- C7 counterexample: a ledger of 101 nonces all minted at the current
instant (age 0, inside any freshness window) is compacted by the trim, and
its oldest entry "0" — younger than the window — is dropped, contradicting
the claim that only entries too old to pass the expiry check may be dropped. -/
theorem c7_counterexample :
    c7Ledger.length > 100 ∧
    "0" ∈ c7Ledger ∧
    10 - c7MintTime "0" ≤ 3 ∧
    "0" ∉ trimNonces c7Ledger := by decide

/-- C7 (amended): the trim is positional, not age-aware: a ledger of at most
100 entries is left intact, and a longer one is cut to exactly its 50 most
recently appended entries — every entry among the last 50 is preserved,
while older entries are dropped regardless of their age. -/
theorem c7_amended_positional_trim (l : List String) :
    (l.length ≤ 100 → trimNonces l = l) ∧
    (l.length > 100 →
      trimNonces l = l.drop (l.length - 50) ∧
      (trimNonces l).length = 50 ∧
      ∀ n ∈ l.drop (l.length - 50), n ∈ trimNonces l) := by
  constructor
  · intro hle
    unfold trimNonces
    rw [if_neg (by omega)]
  · intro hgt
    have htrim : trimNonces l = l.drop (l.length - 50) := by
      unfold trimNonces
      rw [if_pos (by omega)]
    refine ⟨htrim, ?_, ?_⟩
    · rw [htrim, List.length_drop]
      omega
    · intro n hn
      rw [htrim]
      exact hn

/-- Witness for C7 (amended) at the 101-entry ledger: the trim keeps exactly
the last 50 entries. -/
theorem c7_amended_witness :
    trimNonces c7Ledger = c7Ledger.drop (c7Ledger.length - 50) :=
  ((c7_amended_positional_trim c7Ledger).2 (by decide)).1

/-- Comparing a buffer with itself never throws and returns true. -/
lemma timingSafeEqual_self (a : List Nat) : timingSafeEqual a a = .ok true := by
  simp [timingSafeEqual]

/-- Validation of a token produced by `generateQRPayload` under the same
secret reduces to the freshness decision: assuming the external codecs
invert on this token (zlib and base64 round-trip, the JSON serializers
parse back to what was serialized) and the payload fields are JS-truthy,
the result is the future-timestamp error, the expiry error, or the valid
result carrying exactly the minted payload, by the sign of
`now - issuedAt` against the validity window. -/
lemma validate_minted (E : QRExternals)
    (secret sessionId teacherId subjectCode nonce : String)
    (ts validity nowSec : Nat)
    (hb64 : E.b64decode (E.b64encode (E.deflate
        (mintedEnvelope E secret sessionId teacherId subjectCode ts nonce)))
      = E.deflate (mintedEnvelope E secret sessionId teacherId subjectCode ts nonce))
    (hinf : E.inflate (E.deflate
        (mintedEnvelope E secret sessionId teacherId subjectCode ts nonce))
      = some (mintedEnvelope E secret sessionId teacherId subjectCode ts nonce))
    (henv : E.jsonParseEnvelope
        (mintedEnvelope E secret sessionId teacherId subjectCode ts nonce)
      = some (mintedPayloadStr E sessionId teacherId subjectCode ts nonce,
              mintedSig E secret sessionId teacherId subjectCode ts nonce))
    (hpay : E.jsonParsePayload
        (mintedPayloadStr E sessionId teacherId subjectCode ts nonce)
      = some (mintedPayload sessionId teacherId subjectCode ts nonce))
    (hpne : mintedPayloadStr E sessionId teacherId subjectCode ts nonce ≠ "")
    (hsne : mintedSig E secret sessionId teacherId subjectCode ts nonce ≠ "")
    (hsid : sessionId ≠ "") (htid : teacherId ≠ "") (hsub : subjectCode ≠ "")
    (hts : ts ≠ 0) (hn : nonce ≠ "") :
    validateQRPayload E secret validity nowSec
      (generateQRPayload E secret nonce ts sessionId teacherId subjectCode).1 =
    (if (nowSec : Int) - (ts : Int) < 0 then
      invalidResult "Invalid QR data: future timestamp"
     else if (nowSec : Int) - (ts : Int) > (validity : Int) then
      invalidResult "QR code has expired"
     else { valid := true,
            payload := some (mintedPayload sessionId teacherId subjectCode ts nonce),
            error := none }) := by
  have hgen : (generateQRPayload E secret nonce ts sessionId teacherId subjectCode).1
      = E.b64encode (E.deflate
          (mintedEnvelope E secret sessionId teacherId subjectCode ts nonce)) := rfl
  rw [hgen]
  unfold validateQRPayload validateQRBody
  simp only [hb64, hinf, henv, hpne, hsne]
  simp only [mintedSig, timingSafeEqual_self, hpay]
  rw [if_neg (by simp : ¬(False ∨ False))]
  rw [if_neg (by simp : ¬(true = false))]
  simp only [mintedPayload]
  rw [if_neg (by simp [hsid, htid, hsub, hts, hn])]
  by_cases h1 : (nowSec : Int) - (ts : Int) < 0
  · rw [if_pos h1, if_pos h1]
  · rw [if_neg h1, if_neg h1]
    by_cases h2 : (nowSec : Int) - (ts : Int) > (validity : Int)
    · rw [if_pos h2, if_pos h2]
    · rw [if_neg h2, if_neg h2]

/-- Every failing validation result carries a null payload: each failure
return in `validateQRPayload` is an `invalidResult`, whose payload is
`none`. -/
lemma validateQRPayload_valid_false_payload_none (E : QRExternals)
    (secret : String) (validity nowSec : Nat) (q : String) :
    (validateQRPayload E secret validity nowSec q).valid = false →
    (validateQRPayload E secret validity nowSec q).payload = none := by
  unfold validateQRPayload validateQRBody
  cases h1 : E.inflate (E.b64decode q) with
  | none => simp [h1, invalidResult]
  | some d =>
    simp only [h1]
    cases h2 : E.jsonParseEnvelope d with
    | none => simp [invalidResult]
    | some ps =>
      simp only [h2]
      by_cases h3 : ps.1 = "" ∨ ps.2 = ""
      · rw [if_pos h3]; simp [invalidResult]
      · rw [if_neg h3]
        cases h4 : timingSafeEqual (hexToBytes ps.2)
            (hexToBytes (E.hmacSha256Hex secret ps.1)) with
        | error msg => simp [invalidResult]
        | ok sigOk =>
          simp only [h4]
          by_cases h5 : sigOk = false
          · rw [if_pos h5]; simp [invalidResult]
          · rw [if_neg h5]
            cases h6 : E.jsonParsePayload ps.1 with
            | none => simp [invalidResult]
            | some payload =>
              simp only [h6]
              by_cases h7 : payload.v = 0 ∨ payload.sid = "" ∨ payload.tid = "" ∨
                  payload.sub = "" ∨ payload.ts = 0 ∨ payload.n = ""
              · rw [if_pos h7]; simp [invalidResult]
              · rw [if_neg h7]
                by_cases h8 : (nowSec : Int) - (payload.ts : Int) < 0
                · rw [if_pos h8]; simp [invalidResult]
                · rw [if_neg h8]
                  by_cases h9 : (nowSec : Int) - (payload.ts : Int) > (validity : Int)
                  · rw [if_pos h9]; simp [invalidResult]
                  · rw [if_neg h9]; simp

/-- C3: freshness of a signed, well-formed token is decided by
`age = now - issuedAt`: verification strictly before `issuedAt` is the
future-timestamp error; at any instant from `issuedAt` through
`issuedAt + maxAge` (the boundary included) the token is fully valid, in
particular not expired; from `issuedAt + maxAge + 1` on it is always the
expiry error. -/
theorem c3_freshness_window (E : QRExternals)
    (secret sessionId teacherId subjectCode nonce : String) (ts validity : Nat)
    (hb64 : E.b64decode (E.b64encode (E.deflate
        (mintedEnvelope E secret sessionId teacherId subjectCode ts nonce)))
      = E.deflate (mintedEnvelope E secret sessionId teacherId subjectCode ts nonce))
    (hinf : E.inflate (E.deflate
        (mintedEnvelope E secret sessionId teacherId subjectCode ts nonce))
      = some (mintedEnvelope E secret sessionId teacherId subjectCode ts nonce))
    (henv : E.jsonParseEnvelope
        (mintedEnvelope E secret sessionId teacherId subjectCode ts nonce)
      = some (mintedPayloadStr E sessionId teacherId subjectCode ts nonce,
              mintedSig E secret sessionId teacherId subjectCode ts nonce))
    (hpay : E.jsonParsePayload
        (mintedPayloadStr E sessionId teacherId subjectCode ts nonce)
      = some (mintedPayload sessionId teacherId subjectCode ts nonce))
    (hpne : mintedPayloadStr E sessionId teacherId subjectCode ts nonce ≠ "")
    (hsne : mintedSig E secret sessionId teacherId subjectCode ts nonce ≠ "")
    (hsid : sessionId ≠ "") (htid : teacherId ≠ "") (hsub : subjectCode ≠ "")
    (hts : ts ≠ 0) (hn : nonce ≠ "") :
    (∀ nowSec : Nat, nowSec < ts →
      validateQRPayload E secret validity nowSec
        (generateQRPayload E secret nonce ts sessionId teacherId subjectCode).1
      = invalidResult "Invalid QR data: future timestamp") ∧
    (∀ nowSec : Nat, ts ≤ nowSec → nowSec ≤ ts + validity →
      validateQRPayload E secret validity nowSec
        (generateQRPayload E secret nonce ts sessionId teacherId subjectCode).1
      = { valid := true,
          payload := some (mintedPayload sessionId teacherId subjectCode ts nonce),
          error := none }) ∧
    (∀ nowSec : Nat, ts + validity + 1 ≤ nowSec →
      validateQRPayload E secret validity nowSec
        (generateQRPayload E secret nonce ts sessionId teacherId subjectCode).1
      = invalidResult "QR code has expired") := by
  refine ⟨?_, ?_, ?_⟩
  · intro nowSec hlt
    rw [validate_minted E secret sessionId teacherId subjectCode nonce ts validity
      nowSec hb64 hinf henv hpay hpne hsne hsid htid hsub hts hn]
    rw [if_pos (by omega)]
  · intro nowSec hge hle
    rw [validate_minted E secret sessionId teacherId subjectCode nonce ts validity
      nowSec hb64 hinf henv hpay hpne hsne hsid htid hsub hts hn]
    rw [if_neg (by omega), if_neg (by omega)]
  · intro nowSec hgt
    rw [validate_minted E secret sessionId teacherId subjectCode nonce ts validity
      nowSec hb64 hinf henv hpay hpne hsne hsid htid hsub hts hn]
    rw [if_neg (by omega), if_pos (by omega)]

/-- Witness for C3 at the demonstration instance: a token minted at 100 with
window 3 is expired at 104 and valid at the boundary 103. -/
theorem c3_freshness_window_witness :
    validateQRPayload demoExternals "sec" 3 104
      (generateQRPayload demoExternals "sec" "N1" 100 "S1" "T1" "MATH101").1
      = invalidResult "QR code has expired" ∧
    validateQRPayload demoExternals "sec" 3 103
      (generateQRPayload demoExternals "sec" "N1" 100 "S1" "T1" "MATH101").1
      = { valid := true,
          payload := some (mintedPayload "S1" "T1" "MATH101" 100 "N1"),
          error := none } := by
  have h := c3_freshness_window demoExternals "sec" "S1" "T1" "MATH101" "N1"
    100 3 (by rfl) (by rfl) (by decide) (by decide) (by decide) (by decide)
    (by decide) (by decide) (by decide) (by decide) (by decide)
  exact ⟨h.2.2 104 (by decide), h.2.1 103 (by decide) (by decide)⟩

/-- C6: round-trip — validating a credential minted by `generateQRPayload`
under the same secret, at any instant inside the freshness window, succeeds
and recovers exactly the minted payload fields (version 1, sessionId,
teacherId, subjectCode, issuedAt, nonce). -/
theorem c6_roundtrip (E : QRExternals)
    (secret sessionId teacherId subjectCode nonce : String)
    (ts validity nowSec : Nat)
    (hb64 : E.b64decode (E.b64encode (E.deflate
        (mintedEnvelope E secret sessionId teacherId subjectCode ts nonce)))
      = E.deflate (mintedEnvelope E secret sessionId teacherId subjectCode ts nonce))
    (hinf : E.inflate (E.deflate
        (mintedEnvelope E secret sessionId teacherId subjectCode ts nonce))
      = some (mintedEnvelope E secret sessionId teacherId subjectCode ts nonce))
    (henv : E.jsonParseEnvelope
        (mintedEnvelope E secret sessionId teacherId subjectCode ts nonce)
      = some (mintedPayloadStr E sessionId teacherId subjectCode ts nonce,
              mintedSig E secret sessionId teacherId subjectCode ts nonce))
    (hpay : E.jsonParsePayload
        (mintedPayloadStr E sessionId teacherId subjectCode ts nonce)
      = some (mintedPayload sessionId teacherId subjectCode ts nonce))
    (hpne : mintedPayloadStr E sessionId teacherId subjectCode ts nonce ≠ "")
    (hsne : mintedSig E secret sessionId teacherId subjectCode ts nonce ≠ "")
    (hsid : sessionId ≠ "") (htid : teacherId ≠ "") (hsub : subjectCode ≠ "")
    (hts : ts ≠ 0) (hn : nonce ≠ "")
    (hwin1 : ts ≤ nowSec) (hwin2 : nowSec ≤ ts + validity) :
    validateQRPayload E secret validity nowSec
      (generateQRPayload E secret nonce ts sessionId teacherId subjectCode).1
    = { valid := true,
        payload := some (mintedPayload sessionId teacherId subjectCode ts nonce),
        error := none } := by
  rw [validate_minted E secret sessionId teacherId subjectCode nonce ts validity
    nowSec hb64 hinf henv hpay hpne hsne hsid htid hsub hts hn]
  rw [if_neg (by omega), if_neg (by omega)]

/-- Witness for C6 at the demonstration instance: decode ∘ validate of the
minted credential recovers the payload fields exactly. -/
theorem c6_roundtrip_witness :
    validateQRPayload demoExternals "sec" 3 102
      (generateQRPayload demoExternals "sec" "N1" 100 "S1" "T1" "MATH101").1
    = { valid := true,
        payload := some (mintedPayload "S1" "T1" "MATH101" 100 "N1"),
        error := none } :=
  c6_roundtrip demoExternals "sec" "S1" "T1" "MATH101" "N1" 100 3 102
    (by rfl) (by rfl) (by decide) (by decide) (by decide) (by decide)
    (by decide) (by decide) (by decide) (by decide) (by decide)
    (by decide) (by decide)

/-- C9: `validateQRPayload` is total — every failing result carries a null
payload — and when the envelope's signature field hex-decodes to a byte
length other than the 32 bytes of an HMAC-SHA256 digest,
`crypto.timingSafeEqual` throws and the outer catch produces the generic
"QR validation failed" result, not the signature-mismatch (tampered) kind. -/
theorem c9_total_and_generic_catch (E : QRExternals) (secret : String)
    (validity nowSec : Nat) (qrData d p sg : String)
    (hinf : E.inflate (E.b64decode qrData) = some d)
    (henv : E.jsonParseEnvelope d = some (p, sg))
    (hpne : p ≠ "") (hsne : sg ≠ "")
    (hlen32 : (hexToBytes (E.hmacSha256Hex secret p)).length = 32)
    (hbad : (hexToBytes sg).length ≠ 32) :
    (∀ q, (validateQRPayload E secret validity nowSec q).valid = false →
      (validateQRPayload E secret validity nowSec q).payload = none) ∧
    validateQRPayload E secret validity nowSec qrData
      = invalidResult "QR validation failed: Input buffers must have the same byte length" ∧
    validateQRPayload E secret validity nowSec qrData
      ≠ invalidResult "Invalid QR data: signature mismatch (tampered)" := by
  have hts : timingSafeEqual (hexToBytes sg)
      (hexToBytes (E.hmacSha256Hex secret p))
      = .error "Input buffers must have the same byte length" := by
    unfold timingSafeEqual
    rw [if_neg (by rw [hlen32]; exact hbad)]
  have hmain : validateQRPayload E secret validity nowSec qrData
      = invalidResult "QR validation failed: Input buffers must have the same byte length" := by
    unfold validateQRPayload validateQRBody
    simp only [hinf, henv]
    rw [if_neg (by simp [hpne, hsne])]
    simp only [hts]
    decide
  exact ⟨fun q => validateQRPayload_valid_false_payload_none E secret validity
      nowSec q,
    hmain, by rw [hmain]; decide⟩

/-- Witness for C9 at the demonstration instance: an envelope whose
signature field is the 3-character hex string "abc" (one decoded byte)
produces the generic catch-all error. -/
theorem c9_total_and_generic_catch_witness :
    validateQRPayload demoExternals "sec" 3 100 (encEnvelope "x" "abc")
      = invalidResult "QR validation failed: Input buffers must have the same byte length" :=
  (c9_total_and_generic_catch demoExternals "sec" 3 100 (encEnvelope "x" "abc")
    (encEnvelope "x" "abc") "x" "abc" (by rfl) (by decide) (by decide)
    (by decide) (by decide) (by decide)).2.1

/-- A list of length at most one containing x is exactly [x]. -/
lemma length_le_one_eq_singleton {α : Type} {l : List α} {x : α}
    (hlen : l.length ≤ 1) (hx : x ∈ l) : l = [x] := by
  cases l with
  | nil => cases hx
  | cons a t =>
    cases t with
    | nil =>
      simp only [List.mem_singleton] at hx
      rw [hx]
    | cons b t2 => simp at hlen

/-- A filter over a mapped list where no image satisfies the predicate. -/
lemma filter_map_nil {α : Type} (f : α → α) (q : α → Bool) (l : List α)
    (h : ∀ x ∈ l, q (f x) = false) :
    (l.map f).filter q = [] := by
  rw [List.filter_eq_nil_iff]
  intro b hb
  rw [List.mem_map] at hb
  obtain ⟨x, hx, hfx⟩ := hb
  rw [← hfx]
  simp [h x hx]

/-- Mapping that fixes every element still satisfying the predicate cannot
grow the filtered list. -/
lemma filter_map_sublist {α : Type} (f : α → α) (q : α → Bool) (l : List α)
    (h : ∀ x ∈ l, q (f x) = true → f x = x) :
    ((l.map f).filter q).Sublist (l.filter q) := by
  induction l with
  | nil => simp
  | cons a rest ih =>
    have ha := h a (List.mem_cons_self a rest)
    have hr : ∀ x ∈ rest, q (f x) = true → f x = x :=
      fun x hx => h x (List.mem_cons_of_mem a hx)
    simp only [List.map_cons, List.filter_cons]
    by_cases hq : q (f a) = true
    · have hfa : f a = a := ha hq
      rw [hfa] at hq ⊢
      rw [if_pos hq, if_pos hq]
      exact (ih hr).cons₂ a
    · rw [if_neg hq]
      by_cases hqa : q a = true
      · rw [if_pos hqa]
        exact (ih hr).cons a
      · rw [if_neg hqa]
        exact ih hr

/-- POST /attendance/start does not touch the teachers collection. -/
lemma startSession_teachers (db : DB) (c : StartCall) :
    (startSession db c).teachers = db.teachers := by
  unfold startSession
  split
  · rfl
  · split <;> rfl

/-- The teacher-assignment guard is unaffected by a prior start call. -/
lemma teacherAssigned_startSession (db : DB) (c0 : StartCall) (t s : String) :
    teacherAssigned (startSession db c0) t s = teacherAssigned db t s := by
  unfold teacherAssigned
  rw [startSession_teachers]

/-- After a successful start, the presenter's only active session is the
newly created one: the previously active session (unique by the invariant)
was deactivated before the new one was appended. -/
lemma startSession_activeFor_self (db : DB) (c : StartCall)
    (hlen : (activeSessionsFor db c.teacherId).length ≤ 1)
    (hassigned : teacherAssigned db c.teacherId c.subjectCode = true) :
    activeSessionsFor (startSession db c) c.teacherId = [newSessionOf c] := by
  unfold startSession
  rw [if_neg (by simp [hassigned])]
  cases hfind : findActiveSession db c.teacherId with
  | none =>
    simp only [hfind]
    unfold findActiveSession at hfind
    have hnil : db.sessions.filter
        (fun s => s.teacherId == c.teacherId && s.active) = [] := by
      rw [List.filter_eq_nil_iff]
      intro s hs
      exact List.find?_eq_none.mp hfind s hs
    unfold activeSessionsFor
    simp only [List.filter_append, hnil, List.nil_append]
    simp [newSessionOf]
  | some ex =>
    simp only [hfind]
    unfold findActiveSession at hfind
    have hmem : ex ∈ db.sessions := List.mem_of_find?_eq_some hfind
    have hq := List.find?_some hfind
    rw [Bool.and_eq_true] at hq
    have hteq : ex.teacherId = c.teacherId := by simpa using hq.1
    have hact : ex.active = true := hq.2
    have hfl : db.sessions.filter
        (fun s => s.teacherId == c.teacherId && s.active) = [ex] := by
      apply length_le_one_eq_singleton hlen
      exact List.mem_filter.2 ⟨hmem, by simp [hteq, hact]⟩
    unfold activeSessionsFor saveSession
    simp only [List.filter_append]
    rw [filter_map_nil]
    · simp [newSessionOf]
    · intro x hx
      by_cases hid : (x.id == ex.id) = true
      · rw [if_pos hid]
        simp
      · rw [if_neg hid]
        by_cases hqx : (x.teacherId == c.teacherId && x.active) = true
        · have hxex : x = ex := by
            have hxf : x ∈ db.sessions.filter
                (fun s => s.teacherId == c.teacherId && s.active) :=
              List.mem_filter.2 ⟨hx, hqx⟩
            rw [hfl] at hxf
            simpa using hxf
          subst hxex
          simp at hid
        · simpa using hqx

/-- POST /attendance/start preserves the one-active-session-per-presenter
invariant for every presenter. -/
lemma startSession_atMostOne (db : DB) (c : StartCall)
    (hinv : AtMostOneActive db) : AtMostOneActive (startSession db c) := by
  intro t
  by_cases hassigned : teacherAssigned db c.teacherId c.subjectCode = true
  · by_cases ht : t = c.teacherId
    · subst ht
      rw [startSession_activeFor_self db c (hinv c.teacherId) hassigned]
      simp
    · have hct : (c.teacherId == t) = false := by
        simp only [beq_eq_false_iff_ne, ne_eq]
        exact fun hh => ht hh.symm
      unfold startSession
      rw [if_neg (by simp [hassigned])]
      cases hfind : findActiveSession db c.teacherId with
      | none =>
        simp only [hfind]
        unfold activeSessionsFor
        simp only [List.filter_append]
        have hnew : List.filter (fun s => s.teacherId == t && s.active)
            [newSessionOf c] = [] := by
          simp [newSessionOf, hct]
        rw [hnew, List.append_nil]
        exact hinv t
      | some ex =>
        simp only [hfind]
        unfold findActiveSession at hfind
        have hq := List.find?_some hfind
        rw [Bool.and_eq_true] at hq
        have hteq : ex.teacherId = c.teacherId := by simpa using hq.1
        unfold activeSessionsFor saveSession
        simp only [List.filter_append]
        have hnew : List.filter (fun s => s.teacherId == t && s.active)
            [newSessionOf c] = [] := by
          simp [newSessionOf, hct]
        rw [hnew, List.append_nil]
        have hsub := filter_map_sublist
          (fun x => if (x.id == ex.id) = true then
            { ex with active := false, endTime := some c.now } else x)
          (fun s => s.teacherId == t && s.active) db.sessions ?_
        · exact le_trans hsub.length_le (hinv t)
        · intro x hx hqt
          dsimp only at hqt ⊢
          by_cases hid : (x.id == ex.id) = true
          · rw [if_pos hid] at hqt
            simp at hqt
          · rw [if_neg hid]
  · rw [Bool.not_eq_true] at hassigned
    unfold startSession
    rw [if_pos hassigned]
    exact hinv t

/-- C5: starting from a store where every presenter has at most one active
session, any nonempty sequence of successful start calls by presenter X
keeps the invariant for every presenter, and leaves exactly one active
session for X: the one created by the most recent start — start closes the
previous active session (active := false, endTime := now) before creating
the new one. -/
theorem c5_single_active_last_start_wins (db : DB) (cs : List StartCall)
    (c : StartCall) (X : String) (hinv : AtMostOneActive db)
    (hX : ∀ d ∈ cs ++ [c], d.teacherId = X)
    (hassigned : ∀ d ∈ cs ++ [c],
      teacherAssigned db d.teacherId d.subjectCode = true) :
    AtMostOneActive (runStarts db (cs ++ [c])) ∧
    activeSessionsFor (runStarts db (cs ++ [c])) X = [newSessionOf c] := by
  induction cs generalizing db with
  | nil =>
    have hc : c.teacherId = X := hX c (by simp)
    have ha : teacherAssigned db c.teacherId c.subjectCode = true :=
      hassigned c (by simp)
    constructor
    · exact startSession_atMostOne db c hinv
    · rw [show runStarts db ([] ++ [c]) = startSession db c from rfl, ← hc]
      exact startSession_activeFor_self db c (hinv c.teacherId) ha
  | cons c0 rest ih =>
    have h0a : teacherAssigned db c0.teacherId c0.subjectCode = true :=
      hassigned c0 (by simp)
    rw [show runStarts db ((c0 :: rest) ++ [c])
      = runStarts (startSession db c0) (rest ++ [c]) from rfl]
    apply ih (startSession db c0)
    · exact startSession_atMostOne db c0 hinv
    · intro d hd
      exact hX d (List.mem_cons_of_mem c0 hd)
    · intro d hd
      rw [teacherAssigned_startSession]
      exact hassigned d (List.mem_cons_of_mem c0 hd)

/-- Witness for C5: from an empty store, two successive starts by teacher
T1 leave exactly the second call's session active. -/
theorem c5_witness :
    activeSessionsFor (runStarts c5db ([c5c1] ++ [c5c2])) "T1"
      = [newSessionOf c5c2] :=
  (c5_single_active_last_start_wins c5db [c5c1] c5c2 "T1"
    (fun t => by simp [activeSessionsFor, c5db])
    (by decide) (by decide)).2

end QRAtt
